import Mathlib

/-! Spork protocol (src/src/spork.cpp, src/src/spork.h).

A shallow embedding of the spork message handler, the query functions and the
spork manager.  Global variables of the C++ program (`mapSporks`,
`mapSporksActive`, `sporkManager`, `fLiteMode`, `pindexBest`, `vNodes`) are the
fields of an explicit `Node` state; calls that leave the process
(`Misbehaving`, `PushMessage`, `ExecuteSpork`) are recorded, in order, in a
list of `Effect`s.  Logging (`LogPrintf`, `fDebug`) has no effect on the state
and is left out.  Collaborators that are declared outside these files (the
hash function, `ParseHex`, `darkSendSigner`) are the fields of `External`.
-/

namespace Spork

/-! ## std::map -/

/-- Lookup in the entry list of a map (`find`, or `operator[]` on a key that
is present). -/
def rawFind {K V : Type} [DecidableEq K] (k : K) : List (K × V) → Option V
  | [] => none
  | (k1, v1) :: rest => if k = k1 then some v1 else rawFind k rest

/-- Assignment `m[k] = v` on the entry list of a map: overwrite the entry of
`k` when there is one, insert it at its place in key order otherwise. -/
def rawSet {K V : Type} [LinearOrder K] (k : K) (v : V) : List (K × V) → List (K × V)
  | [] => [(k, v)]
  | (k1, v1) :: rest =>
    if k < k1 then (k, v) :: (k1, v1) :: rest
    else if k1 < k then (k1, v1) :: rawSet k v rest
    else (k, v) :: rest

/-- Every key of an entry list lies above the bound `b`. -/
def keysAbove {K V : Type} [LinearOrder K] (b : K) (l : List (K × V)) : Prop :=
  ∀ e ∈ l, b < e.1

/-- Strictly ascending keys: the iteration order of a `std::map`, which also
makes keys unique. -/
def keysAscending {K V : Type} [LinearOrder K] (l : List (K × V)) : Prop :=
  l.Pairwise (fun a b => a.1 < b.1)

theorem keysAbove_rawSet {K V : Type} [LinearOrder K] (b k : K) (v : V)
    (l : List (K × V)) (hb : b < k) (hl : keysAbove b l) :
    keysAbove b (rawSet k v l) := by
  induction l with
  | nil =>
    intro e he
    simp [rawSet] at he
    subst he
    exact hb
  | cons hd tl ih =>
    obtain ⟨k1, v1⟩ := hd
    have hhd : b < k1 := hl (k1, v1) (by simp)
    have htl : keysAbove b tl := fun e he => hl e (List.mem_cons_of_mem _ he)
    intro e he
    unfold rawSet at he
    split_ifs at he with h1 h2
    · rcases List.mem_cons.1 he with h | h
      · subst h; exact hb
      · exact hl e h
    · rcases List.mem_cons.1 he with h | h
      · subst h; exact hhd
      · exact ih htl e h
    · rcases List.mem_cons.1 he with h | h
      · subst h; exact hb
      · exact htl e h

theorem keysAscending_rawSet {K V : Type} [LinearOrder K] (k : K) (v : V)
    (l : List (K × V)) (hl : keysAscending l) : keysAscending (rawSet k v l) := by
  induction l with
  | nil => simp [rawSet, keysAscending]
  | cons hd tl ih =>
    obtain ⟨k1, v1⟩ := hd
    have hcons := List.pairwise_cons.1 hl
    have htl : keysAscending tl := hcons.2
    have habove : keysAbove k1 tl := fun e he => hcons.1 e he
    unfold rawSet
    split_ifs with h1 h2
    · refine List.pairwise_cons.2 ⟨?_, hl⟩
      intro e he
      rcases List.mem_cons.1 he with h | h
      · subst h; exact h1
      · exact lt_trans h1 (habove e h)
    · exact List.pairwise_cons.2 ⟨keysAbove_rawSet k1 k v tl h2 habove, ih htl⟩
    · have hk : k = k1 := le_antisymm (not_lt.1 h2) (not_lt.1 h1)
      refine List.pairwise_cons.2 ⟨?_, htl⟩
      intro e he
      rw [hk]
      exact habove e he

/-- A `std::map<K, V>`: the entries in iteration order, keys strictly
ascending. -/
structure StdMap (K V : Type) [LinearOrder K] where
  entries : List (K × V)
  ordered : keysAscending entries

namespace StdMap

variable {K V : Type} [LinearOrder K]

/-- The map of a freshly started process. -/
def empty : StdMap K V := ⟨[], List.Pairwise.nil⟩

/-- Lookup: `none` when `count(k) == 0`, the mapped value otherwise. -/
def find? (m : StdMap K V) (k : K) : Option V := rawFind k m.entries

/-- Member function `count`: 1 for a key that is present, 0 otherwise. -/
def count (m : StdMap K V) (k : K) : Nat := if (m.find? k).isSome then 1 else 0

/-- Assignment `m[k] = v`. -/
def set (m : StdMap K V) (k : K) (v : V) : StdMap K V :=
  ⟨rawSet k v m.entries, keysAscending_rawSet k v m.entries m.ordered⟩

/-- Number of entries, `size()`. -/
def size (m : StdMap K V) : Nat := m.entries.length

theorem ext_entries {a b : StdMap K V} (h : a.entries = b.entries) : a = b := by
  cases a; cases b; cases h; rfl

instance [DecidableEq V] : DecidableEq (StdMap K V) := fun a b =>
  decidable_of_iff (a.entries = b.entries) ⟨ext_entries, fun h => by rw [h]⟩

end StdMap

/-! ## Data model (spork.h) -/

/-- Class `CSporkMessage`: `vchSig` (bytes), `int nSporkID`, `int64_t nValue`,
`int64_t nTimeSigned`. -/
structure CSporkMessage where
  vchSig : List Nat
  nSporkID : Int
  nValue : Int
  nTimeSigned : Int
  deriving DecidableEq, Repr

/-- Spork ids of spork.h. -/
def SPORK_MASTERNODE_PAYMENTS_ENFORCEMENT : Int := 10000
/-- Spork ids of spork.h. -/
def SPORK_MAX_INSTANTX_VALUE : Int := 10002
/-- Default of spork 10000: 2018-11-01 (00:00:00 GMT). -/
def SPORK_MASTERNODE_PAYMENTS_ENFORCEMENT_DEFAULT : Int := 1541030400
/-- Default of spork 10002. -/
def SPORK_MAX_INSTANTX_VALUE_DEFAULT : Int := 10000

/-- Class `CSporkManager`, data members. -/
structure CSporkManager where
  vchSig : List Nat
  strMasterPrivKey : String
  strTestPubKey : String
  strMainPubKey : String
  deriving DecidableEq, Repr

/-- Constructor `CSporkManager()`: the two compiled-in public keys. -/
def CSporkManager.new : CSporkManager where
  vchSig := []
  strMasterPrivKey := ""
  strMainPubKey := "04a6a044940a141aa186ccd316c31b000ed85545e8c19e5e28978e09fd43" ++
    "d744dcd3d46fb445c29b0890dc54ca46a3a39beb8e9b4c866bba8ac557e30fbb030c56"
  strTestPubKey := "0452530188dbcb3d88eb0a59dec060ed1275d545a82dc62a7e928cec7743" ++
    "1a3693cddde4f2809203175f72589d2cea769d563b8552a0a92cc1fb4c31d7b0a770c3"

/-- Collaborators declared outside spork.cpp and spork.h, taken as
parameters: the hash over the bytes from `nSporkID` to `nTimeSigned`
(as a function of the three fields), `ParseHex`, and the three operations of
`darkSendSigner`.  `SetKey` yields the key pair on success; `SignMessage`
yields its result and the content of the signature buffer it leaves. -/
structure External where
  Hash : Int → Int → Int → Nat
  ParseHex : String → List Nat
  VerifyMessage : List Nat → List Nat → String → Bool
  SetKey : String → Option (List Nat × List Nat)
  SignMessage : String → List Nat → List Nat → Bool × List Nat

/-- The process state that spork.cpp reads and writes. `pindexBest` is
`none` for a NULL chain tip and holds the tip height otherwise; `vNodes` are
the ids of the connected peers. -/
structure Node where
  fLiteMode : Bool
  pindexBest : Option Nat
  vNodes : List Nat
  mapSporks : StdMap Nat CSporkMessage
  mapSporksActive : StdMap Int CSporkMessage
  sporkManager : CSporkManager

/-- Calls that leave spork.cpp, in the order they are made. -/
inductive Effect where
  | misbehaving (peer : Nat) (howmuch : Int)
  | pushInv (peer : Nat) (hash : Nat)
  | pushSpork (peer : Nat) (msg : CSporkMessage)
  | executeSpork (nSporkID : Int) (nValue : Int)
  deriving DecidableEq, Repr

/-- Conversion of an integer to the 32-bit `int` (two's complement wrap). -/
def toInt32 (x : Int) : Int := (x + 2 ^ 31) % 2 ^ 32 - 2 ^ 31

/-! ## spork.cpp -/

/-- Method `CSporkMessage::GetHash`. -/
def GetHash (ext : External) (m : CSporkMessage) : Nat :=
  ext.Hash m.nSporkID m.nValue m.nTimeSigned

/-- Function `boost::lexical_cast<std::string>` at an integer: its decimal
text. -/
def lexical_cast (n : Int) : String := toString n

/-- The message that `CheckSignature` and `Sign` build. -/
def strMessage (m : CSporkMessage) : String :=
  lexical_cast m.nSporkID ++ lexical_cast m.nValue ++ lexical_cast m.nTimeSigned

/-- Method `CSporkManager::CheckSignature`. -/
def CheckSignature (ext : External) (mgr : CSporkManager) (spork : CSporkMessage) : Bool :=
  let strPubKey := mgr.strMainPubKey
  let pubkey := ext.ParseHex strPubKey
  if !ext.VerifyMessage pubkey spork.vchSig (strMessage spork) then false else true

/-- Method `CSporkManager::Sign`: the result and the message with the
signature buffer as `Sign` leaves it. -/
def Sign (ext : External) (mgr : CSporkManager) (spork : CSporkMessage) :
    Bool × CSporkMessage :=
  match ext.SetKey mgr.strMasterPrivKey with
  | none => (false, spork)
  | some (key2, pubkey2) =>
    let signed := ext.SignMessage (strMessage spork) key2 spork.vchSig
    let spork1 := { spork with vchSig := signed.2 }
    if !signed.1 then (false, spork1)
    else if !ext.VerifyMessage pubkey2 spork1.vchSig (strMessage spork) then (false, spork1)
    else (true, spork1)

/-- Method `CSporkManager::Relay`: one inventory announcement of the hash to
every connected peer. -/
def Relay (ext : External) (st : Node) (msg : CSporkMessage) : List Effect :=
  st.vNodes.map (fun pnode => Effect.pushInv pnode (GetHash ext msg))

/-- Function `ExecuteSpork(int nSporkID, int nValue)`: the body is empty; the
call is recorded with the two `int` arguments it receives. -/
def ExecuteSpork (nSporkID : Int) (nValue : Int) : List Effect :=
  [Effect.executeSpork nSporkID nValue]

/-- The test of lines 45 to 47 of spork.cpp: the hash is a key of
`mapSporks`, the id is a key of `mapSporksActive`, and the active record is
signed at or after the incoming one. -/
def ProcessSpork.seen (ext : External) (st : Node) (spork : CSporkMessage) : Bool :=
  if st.mapSporks.count (GetHash ext spork) ≠ 0 ∧ st.mapSporksActive.count spork.nSporkID ≠ 0 then
    match st.mapSporksActive.find? spork.nSporkID with
    | some active => decide (active.nTimeSigned ≥ spork.nTimeSigned)
    | none => false
  else false

/-- The block `if (strCommand == "spork")` of `ProcessSpork`, for the
decoded payload `spork`.  The first component is `true` when the block
leaves the function with `return`.  The `int64_t` field `nValue` is converted
to `int` where it is passed to `ExecuteSpork`. -/
def ProcessSpork.spork (ext : External) (st : Node) (pfrom : Nat)
    (spork : CSporkMessage) : Bool × Node × List Effect :=
  match st.pindexBest with
  | none => (true, st, [])
  | some _ =>
    let hash := GetHash ext spork
    if ProcessSpork.seen ext st spork then (true, st, [])
    else if !CheckSignature ext st.sporkManager spork then
      (true, st, [Effect.misbehaving pfrom 100])
    else
      let st1 := { st with mapSporks := st.mapSporks.set hash spork }
      let st2 := { st1 with mapSporksActive := st1.mapSporksActive.set spork.nSporkID spork }
      (false, st2, Relay ext st2 spork ++ ExecuteSpork spork.nSporkID (toInt32 spork.nValue))

/-- The block `if (strCommand == "getsporks")` of `ProcessSpork`. -/
def ProcessSpork.getsporks (st : Node) (pfrom : Nat) : List Effect :=
  st.mapSporksActive.entries.map (fun it => Effect.pushSpork pfrom it.2)

/-- Function `ProcessSpork(pfrom, strCommand, vRecv)`; `vRecv` is the payload
as `vRecv >> spork` decodes it. -/
def ProcessSpork (ext : External) (st : Node) (pfrom : Nat) (strCommand : String)
    (vRecv : CSporkMessage) : Node × List Effect :=
  if st.fLiteMode then (st, [])
  else
    let r := if strCommand = "spork" then ProcessSpork.spork ext st pfrom vRecv
             else (false, st, [])
    if r.1 then (r.2.1, r.2.2)
    else if strCommand = "getsporks" then
      (r.2.1, r.2.2 ++ ProcessSpork.getsporks r.2.1 pfrom)
    else (r.2.1, r.2.2)

/-- Function `IsSporkActive`, at the clock reading `now` of `GetTime()`. -/
def IsSporkActive (st : Node) (now : Int) (nSporkID : Int) : Bool :=
  let r : Int :=
    match st.mapSporksActive.find? nSporkID with
    | some active => active.nValue
    | none =>
      let r0 : Int := 0
      let r1 := if nSporkID = SPORK_MASTERNODE_PAYMENTS_ENFORCEMENT then
                  SPORK_MASTERNODE_PAYMENTS_ENFORCEMENT_DEFAULT else r0
      if nSporkID = SPORK_MAX_INSTANTX_VALUE then SPORK_MAX_INSTANTX_VALUE_DEFAULT else r1
  let r := if r = 0 then 4070908800 else r
  decide (r < now)

/-- Function `GetSporkValue`: the local `r` and the result are `int`. -/
def GetSporkValue (st : Node) (nSporkID : Int) : Int :=
  match st.mapSporksActive.find? nSporkID with
  | some active => toInt32 active.nValue
  | none =>
    let r0 : Int := 0
    let r1 := if nSporkID = SPORK_MASTERNODE_PAYMENTS_ENFORCEMENT then
                toInt32 SPORK_MASTERNODE_PAYMENTS_ENFORCEMENT_DEFAULT else r0
    if nSporkID = SPORK_MAX_INSTANTX_VALUE then toInt32 SPORK_MAX_INSTANTX_VALUE_DEFAULT else r1

/-- Method `CSporkManager::UpdateSpork`, at the clock reading `now`. -/
def UpdateSpork (ext : External) (st : Node) (now : Int) (nSporkID : Int) (nValue : Int) :
    Bool × Node × List Effect :=
  let msg : CSporkMessage :=
    { vchSig := [], nSporkID := nSporkID, nValue := nValue, nTimeSigned := now }
  let signed := Sign ext st.sporkManager msg
  if signed.1 then
    let msg := signed.2
    let st1 := { st with mapSporks := st.mapSporks.set (GetHash ext msg) msg }
    let st2 := { st1 with mapSporksActive := st1.mapSporksActive.set nSporkID msg }
    (true, st2, Relay ext st msg)
  else (false, st, [])

/-- Method `CSporkManager::SetPrivKey`; `msg` is the local `CSporkMessage`,
whose integer fields the method does not initialise. -/
def SetPrivKey (ext : External) (mgr : CSporkManager) (msg : CSporkMessage)
    (strPrivKey : String) : Bool × CSporkManager :=
  let mgr1 := { mgr with strMasterPrivKey := strPrivKey }
  let msg1 := (Sign ext mgr1 msg).2
  if CheckSignature ext mgr1 msg1 then (true, mgr1) else (false, mgr1)

/-- Method `CSporkManager::GetSporkIDByName`. -/
def GetSporkIDByName (strName : String) : Int :=
  if strName = "SPORK_MASTERNODE_PAYMENTS_ENFORCEMENT" then SPORK_MASTERNODE_PAYMENTS_ENFORCEMENT
  else if strName = "SPORK_MAX_INSTANTX_VALUE" then SPORK_MAX_INSTANTX_VALUE
  else -1

/-- Method `CSporkManager::GetSporkNameByID`. -/
def GetSporkNameByID (id : Int) : String :=
  if id = SPORK_MASTERNODE_PAYMENTS_ENFORCEMENT then "SPORK_MASTERNODE_PAYMENTS_ENFORCEMENT"
  else if id = SPORK_MAX_INSTANTX_VALUE then "SPORK_MAX_INSTANTX_VALUE"
  else "Unknown"

/-! ## Delivery of several messages, and fixtures for concrete runs -/

/-- The node receives the records of a list one after the other, each as a
"spork" message from peer `pfrom`; the effects are collected in order. -/
def deliver (ext : External) (pfrom : Nat) : Node → List CSporkMessage → Node × List Effect
  | st, [] => (st, [])
  | st, r :: rest =>
    let step := ProcessSpork ext st pfrom "spork" r
    let tail := deliver ext pfrom step.1 rest
    (tail.1, step.2 ++ tail.2)

/-- A collision-free stand-in for the hash: the three fields at fixed width
(32, 64 and 64 bits), read as one number. -/
def fieldHash (id v t : Int) : Nat :=
  (id % 2 ^ 32).toNat + 2 ^ 32 * (v % 2 ^ 64).toNat + 2 ^ 96 * (t % 2 ^ 64).toNat

/-- A stand-in for the collaborators in which the signature of a message is
the list of its character codes; no private key is configured. -/
def textSigner : External where
  Hash := fieldHash
  ParseHex := fun s => s.toList.map Char.toNat
  VerifyMessage := fun _ sig msg => decide (sig = msg.toList.map Char.toNat)
  SetKey := fun _ => none
  SignMessage := fun _ _ sig => (false, sig)

/-- The record `(id, v, t)` with the signature that `textSigner` accepts. -/
def signedRecord (id v t : Int) : CSporkMessage :=
  { vchSig := (strMessage ⟨[], id, v, t⟩).toList.map Char.toNat,
    nSporkID := id, nValue := v, nTimeSigned := t }

/-- A node with a chain tip, two peers (1 and 2) and empty maps. -/
def startNode : Node where
  fLiteMode := false
  pindexBest := some 0
  vNodes := [1, 2]
  mapSporks := StdMap.empty
  mapSporksActive := StdMap.empty
  sporkManager := CSporkManager.new

/-- Spork 10000 set to 5, signed at time 1000. -/
def recordFirst : CSporkMessage := signedRecord 10000 5 1000

/-- Spork 10000 set to 99, signed at the earlier time 500. -/
def recordOlder : CSporkMessage := signedRecord 10000 99 500

/-- Spork 10000 set to 6, signed at time 1000 like `recordFirst`. -/
def recordTie : CSporkMessage := signedRecord 10000 6 1000

/-- The node `startNode` after it has received `recordFirst` from peer 7. -/
def nodeAfterFirst : Node := (ProcessSpork textSigner startNode 7 "spork" recordFirst).1

/-- The node `nodeAfterFirst` in lite mode. -/
def nodeLite : Node := { nodeAfterFirst with fLiteMode := true }

/-- The node `startNode` in lite mode. -/
def startNodeLite : Node := { startNode with fLiteMode := true }

/-- Spork 10000 set to 4070908800 (2099-01-01), signed at time 1000. -/
def recordWide : CSporkMessage := signedRecord 10000 4070908800 1000

/-- The fields of `recordFirst` with the first signature byte corrupted. -/
def recordForged : CSporkMessage := { recordFirst with vchSig := 0 :: recordFirst.vchSig.tail }

/-- Spork 10000 set to 0, signed at time 1000. -/
def recordZero : CSporkMessage := signedRecord 10000 0 1000

/-- The node `startNode` after it has received `recordWide` from peer 7. -/
def nodeAfterWide : Node := (ProcessSpork textSigner startNode 7 "spork" recordWide).1

/-- The node `startNode` after it has received `recordZero` from peer 7. -/
def nodeAfterZero : Node := (ProcessSpork textSigner startNode 7 "spork" recordZero).1

/-! ## A signer with private keys, and reachable states -/

/-- The stand-in for `ParseHex` of the fixtures: the character codes of the
text. -/
def keyBytes (s : String) : List Nat := s.toList.map Char.toNat

/-- Tag of a public key in `keyedSigner`: 1 for the compiled-in main key, 2
for the compiled-in test key, 3 for any other key. -/
def keyTag (pubkey : List Nat) : Nat :=
  if pubkey = keyBytes CSporkManager.new.strMainPubKey then 1
  else if pubkey = keyBytes CSporkManager.new.strTestPubKey then 2
  else 3

/-- A stand-in for the collaborators with three private keys: "main" and
"test" pair with the two compiled-in public keys, "stranger" pairs with
another public key.  The signature of a message is the tag of the key
followed by the character codes of the message; verification ignores bytes
that follow. -/
def keyedSigner : External where
  Hash := fieldHash
  ParseHex := keyBytes
  VerifyMessage := fun pubkey sig msg =>
    decide (sig.take (msg.length + 1) = keyTag pubkey :: msg.toList.map Char.toNat)
  SetKey := fun s =>
    if s = "main" then some ([1], keyBytes CSporkManager.new.strMainPubKey)
    else if s = "test" then some ([2], keyBytes CSporkManager.new.strTestPubKey)
    else if s = "stranger" then some ([3], [3])
    else none
  SignMessage := fun msg key _ => (true, key ++ msg.toList.map Char.toNat)

/-- The record `(id, v, t)` with the signature of `keyedSigner` under the key
with tag `tag`. -/
def keyedRecord (tag : Nat) (id v t : Int) : CSporkMessage :=
  { vchSig := tag :: (strMessage ⟨[], id, v, t⟩).toList.map Char.toNat,
    nSporkID := id, nValue := v, nTimeSigned := t }

/-- The node `startNode` with the private key `key` installed. -/
def keyedNode (key : String) : Node :=
  { startNode with sporkManager := { CSporkManager.new with strMasterPrivKey := key } }

/-- A local `CSporkMessage` as `SetPrivKey` declares it, with zero in the
integer fields. -/
def blankMessage : CSporkMessage := ⟨[], 0, 0, 0⟩

/-- The record that `UpdateSpork(id, value)` builds at the clock reading `now`
before it signs it. -/
def unsignedRecord (id value now : Int) : CSporkMessage :=
  { vchSig := [], nSporkID := id, nValue := value, nTimeSigned := now }

/-- The record (10000, 5, 1000) signed under the main key, with one more byte
after the signature. -/
def recordPadded : CSporkMessage :=
  { keyedRecord 1 10000 5 1000 with vchSig := (keyedRecord 1 10000 5 1000).vchSig ++ [0] }

/-- The states a node goes through: it starts with both maps empty, it runs
`ProcessSpork` and `UpdateSpork`, and whatever else happens (chain tip, peers,
lite mode, private key) leaves the two maps as they are. -/
inductive Reachable (ext : External) : Node → Prop
  | start (st : Node) (h1 : st.mapSporks = StdMap.empty)
      (h2 : st.mapSporksActive = StdMap.empty) : Reachable ext st
  | process (st : Node) (pfrom : Nat) (strCommand : String) (vRecv : CSporkMessage)
      (h : Reachable ext st) : Reachable ext (ProcessSpork ext st pfrom strCommand vRecv).1
  | update (st : Node) (now nSporkID nValue : Int)
      (h : Reachable ext st) : Reachable ext (UpdateSpork ext st now nSporkID nValue).2.1
  | surroundings (st st2 : Node) (h : Reachable ext st)
      (h1 : st2.mapSporks = st.mapSporks) (h2 : st2.mapSporksActive = st.mapSporksActive) :
      Reachable ext st2

/-- Every entry of `mapSporksActive` holds a record with the id of its key
and with a hash that is a key of `mapSporks`. -/
def Paired (ext : External) (st : Node) : Prop :=
  ∀ id r, st.mapSporksActive.find? id = some r →
    r.nSporkID = id ∧ ∃ s, st.mapSporks.find? (GetHash ext r) = some s

/-- Every key of the two maps of `st` is a key of the same map of `st2`. -/
def KeysKept (st st2 : Node) : Prop :=
  (∀ k s, st.mapSporks.find? k = some s → ∃ s2, st2.mapSporks.find? k = some s2) ∧
  (∀ id a, st.mapSporksActive.find? id = some a →
    ∃ a2, st2.mapSporksActive.find? id = some a2)

/-! ## Reading decimal text back -/

/-- The value of a decimal digit character. -/
def digitValue (c : Char) : Nat := c.toNat - 48

/-- Reading of a list of decimal digits, most significant first. -/
def readDigits (l : List Char) : Nat := l.foldl (fun acc c => 10 * acc + digitValue c) 0

/-- Reading of a decimal text with an optional leading minus sign. -/
def readInt : List Char → Int
  | '-' :: rest => -(readDigits rest : Int)
  | l => (readDigits l : Int)

/-! ## Lemmas on maps -/

theorem rawFind_rawSet_self {K V : Type} [LinearOrder K] (k : K) (v : V)
    (l : List (K × V)) : rawFind k (rawSet k v l) = some v := by
  induction l with
  | nil => simp [rawSet, rawFind]
  | cons hd tl ih =>
    obtain ⟨k1, v1⟩ := hd
    unfold rawSet
    split_ifs with h1 h2
    · simp [rawFind]
    · have hne : k ≠ k1 := fun h => by rw [h] at h2; exact lt_irrefl _ h2
      simp [rawFind, hne, ih]
    · simp [rawFind]

theorem rawFind_rawSet_other {K V : Type} [LinearOrder K] (k k2 : K) (v : V)
    (l : List (K × V)) (hne : k2 ≠ k) : rawFind k2 (rawSet k v l) = rawFind k2 l := by
  induction l with
  | nil => simp [rawSet, rawFind, hne]
  | cons hd tl ih =>
    obtain ⟨k1, v1⟩ := hd
    unfold rawSet
    split_ifs with h1 h2
    · simp [rawFind, hne]
    · simp [rawFind, ih]
    · have hk : k = k1 := le_antisymm (not_lt.1 h2) (not_lt.1 h1)
      have hne1 : k2 ≠ k1 := by rw [← hk]; exact hne
      simp [rawFind, hne, hne1]

theorem StdMap.find?_set_self {K V : Type} [LinearOrder K] (m : StdMap K V) (k : K) (v : V) :
    (m.set k v).find? k = some v :=
  rawFind_rawSet_self k v m.entries

theorem StdMap.find?_set_other {K V : Type} [LinearOrder K] (m : StdMap K V) (k k2 : K)
    (v : V) (hne : k2 ≠ k) : (m.set k v).find? k2 = m.find? k2 :=
  rawFind_rawSet_other k k2 v m.entries hne

theorem StdMap.count_ne_zero_iff {K V : Type} [LinearOrder K] (m : StdMap K V) (k : K) :
    m.count k ≠ 0 ↔ ∃ v, m.find? k = some v := by
  unfold StdMap.count
  cases h : m.find? k <;> simp

theorem StdMap.keys_nodup {K V : Type} [LinearOrder K] (m : StdMap K V) :
    (m.entries.map Prod.fst).Nodup := by
  have h := m.ordered
  unfold keysAscending at h
  rw [List.Nodup, List.pairwise_map]
  exact h.imp (fun hab => ne_of_lt hab)

theorem rawFind_of_mem {K V : Type} [LinearOrder K] (l : List (K × V))
    (hl : keysAscending l) (e : K × V) (he : e ∈ l) : rawFind e.1 l = some e.2 := by
  induction l with
  | nil => simp at he
  | cons hd tl ih =>
    obtain ⟨k1, v1⟩ := hd
    have hcons := List.pairwise_cons.1 hl
    rcases List.mem_cons.1 he with h | h
    · subst h; simp [rawFind]
    · have hlt : k1 < e.1 := hcons.1 e h
      have hne : e.1 ≠ k1 := ne_of_gt hlt
      simp [rawFind, hne, ih hcons.2 h]

theorem toInt32_of_fits (x : Int) (hlo : -2 ^ 31 ≤ x) (hhi : x < 2 ^ 31) : toInt32 x = x := by
  unfold toInt32
  norm_num at hlo hhi ⊢
  omega

/-! ## Lemmas on `ProcessSpork` -/

theorem ProcessSpork_lite (ext : External) (st : Node) (pfrom : Nat) (strCommand : String)
    (vRecv : CSporkMessage) (h : st.fLiteMode = true) :
    ProcessSpork ext st pfrom strCommand vRecv = (st, []) := by
  simp [ProcessSpork, h]

theorem ProcessSpork_spork_eq (ext : External) (st : Node) (pfrom : Nat)
    (vRecv : CSporkMessage) (h : st.fLiteMode = false) :
    ProcessSpork ext st pfrom "spork" vRecv =
      ((ProcessSpork.spork ext st pfrom vRecv).2.1,
       (ProcessSpork.spork ext st pfrom vRecv).2.2) := by
  have hne : ¬ ("spork" = "getsporks") := by decide
  simp only [ProcessSpork, h, hne]
  simp

theorem ProcessSpork_getsporks_eq (ext : External) (st : Node) (pfrom : Nat)
    (vRecv : CSporkMessage) (h : st.fLiteMode = false) :
    ProcessSpork ext st pfrom "getsporks" vRecv = (st, ProcessSpork.getsporks st pfrom) := by
  have hne : ¬ ("getsporks" = "spork") := by decide
  simp [ProcessSpork, h, hne]

theorem ProcessSpork_other_eq (ext : External) (st : Node) (pfrom : Nat) (strCommand : String)
    (vRecv : CSporkMessage) (h1 : strCommand ≠ "spork") (h2 : strCommand ≠ "getsporks") :
    ProcessSpork ext st pfrom strCommand vRecv = (st, []) := by
  simp [ProcessSpork, h1, h2]

theorem seen_eq_true_iff (ext : External) (st : Node) (r : CSporkMessage) :
    ProcessSpork.seen ext st r = true ↔
      (∃ s, st.mapSporks.find? (GetHash ext r) = some s) ∧
      ∃ a, st.mapSporksActive.find? r.nSporkID = some a ∧ a.nTimeSigned ≥ r.nTimeSigned := by
  unfold ProcessSpork.seen
  constructor
  · intro h
    split_ifs at h with hc
    have h1 := (StdMap.count_ne_zero_iff _ _).1 hc.1
    obtain ⟨a, ha⟩ := (StdMap.count_ne_zero_iff _ _).1 hc.2
    refine ⟨h1, ?_⟩
    rw [ha] at h
    exact ⟨a, ha, by simpa using h⟩
  · rintro ⟨hs, a, ha, hge⟩
    have hc : st.mapSporks.count (GetHash ext r) ≠ 0 ∧ st.mapSporksActive.count r.nSporkID ≠ 0 :=
      ⟨(StdMap.count_ne_zero_iff _ _).2 hs, (StdMap.count_ne_zero_iff _ _).2 ⟨a, ha⟩⟩
    rw [if_pos hc, ha]
    simpa using hge

/-- The three ways through the "spork" block when there is a chain tip: the
early return for a seen record, the failed signature check, the acceptance. -/
theorem spork_block_cases (ext : External) (st : Node) (pfrom : Nat) (r : CSporkMessage)
    (hchain : st.pindexBest ≠ none) :
    (ProcessSpork.seen ext st r = true ∧
      ProcessSpork.spork ext st pfrom r = (true, st, [])) ∨
    (ProcessSpork.seen ext st r = false ∧ CheckSignature ext st.sporkManager r = false ∧
      ProcessSpork.spork ext st pfrom r = (true, st, [Effect.misbehaving pfrom 100])) ∨
    (ProcessSpork.seen ext st r = false ∧ CheckSignature ext st.sporkManager r = true ∧
      ProcessSpork.spork ext st pfrom r =
        (false,
         { st with mapSporks := st.mapSporks.set (GetHash ext r) r,
                   mapSporksActive := st.mapSporksActive.set r.nSporkID r },
         st.vNodes.map (fun pnode => Effect.pushInv pnode (GetHash ext r)) ++
           [Effect.executeSpork r.nSporkID (toInt32 r.nValue)])) := by
  unfold ProcessSpork.spork
  cases hb : st.pindexBest with
  | none => exact absurd hb hchain
  | some tip =>
    cases hseen : ProcessSpork.seen ext st r with
    | true => left; simp
    | false =>
      cases hsig : CheckSignature ext st.sporkManager r with
      | false => right; left; simp
      | true => right; right; simp [Relay, ExecuteSpork]

theorem spork_block_no_chain (ext : External) (st : Node) (pfrom : Nat) (r : CSporkMessage)
    (hchain : st.pindexBest = none) :
    ProcessSpork.spork ext st pfrom r = (true, st, []) := by
  unfold ProcessSpork.spork
  rw [hchain]

/-! ## The merge rule of `ProcessSpork` -/

/-- C1, the code at the failing input: the active record of spork 10000 is
signed at 1000; a validly signed record for the same id, signed at 500 and
with a hash that is not yet a key of `mapSporks`, replaces it, is relayed to
both peers and is dispatched.  A validly signed record with the same time 1000
and another value replaces it as well. -/
theorem C1_unseen_stale_record_replaces_active :
    nodeAfterFirst.fLiteMode = false ∧ nodeAfterFirst.pindexBest = some 0 ∧
    nodeAfterFirst.mapSporksActive.find? 10000 = some recordFirst ∧
    recordFirst.nTimeSigned ≥ recordOlder.nTimeSigned ∧
    CheckSignature textSigner nodeAfterFirst.sporkManager recordOlder = true ∧
    nodeAfterFirst.mapSporks.find? (GetHash textSigner recordOlder) = none ∧
    (ProcessSpork textSigner nodeAfterFirst 7 "spork" recordOlder).1.mapSporksActive.entries
      = [(10000, recordOlder)] ∧
    (ProcessSpork textSigner nodeAfterFirst 7 "spork" recordOlder).2
      = [Effect.pushInv 1 (GetHash textSigner recordOlder),
         Effect.pushInv 2 (GetHash textSigner recordOlder),
         Effect.executeSpork 10000 99] ∧
    recordFirst.nTimeSigned = recordTie.nTimeSigned ∧
    CheckSignature textSigner nodeAfterFirst.sporkManager recordTie = true ∧
    (ProcessSpork textSigner nodeAfterFirst 7 "spork" recordTie).1.mapSporksActive.entries
      = [(10000, recordTie)] := by
  decide

/-- C2, the code at the failing input: after `recordFirst` (signed at 1000)
and then `recordOlder` (signed at 500), both validly signed and both inserted
into `mapSporks`, the active record of spork 10000 is the one signed at 500. -/
theorem C2_active_is_not_the_latest_signed :
    (deliver textSigner 7 startNode [recordFirst, recordOlder]).1.mapSporks.find?
        (GetHash textSigner recordFirst) = some recordFirst ∧
    (deliver textSigner 7 startNode [recordFirst, recordOlder]).1.mapSporks.find?
        (GetHash textSigner recordOlder) = some recordOlder ∧
    (deliver textSigner 7 startNode [recordFirst, recordOlder]).1.mapSporksActive.find? 10000
      = some recordOlder ∧
    recordOlder.nTimeSigned < recordFirst.nTimeSigned := by
  decide

/-- C3, the code at the failing input: the same two validly signed records
delivered in the two possible orders leave different active maps. -/
theorem C3_arrival_order_decides_active :
    (deliver textSigner 7 startNode [recordFirst, recordOlder]).1.mapSporksActive.entries
      = [(10000, recordOlder)] ∧
    (deliver textSigner 7 startNode [recordOlder, recordFirst]).1.mapSporksActive.entries
      = [(10000, recordFirst)] ∧
    (deliver textSigner 7 startNode [recordFirst, recordOlder]).1.mapSporksActive
      ≠ (deliver textSigner 7 startNode [recordOlder, recordFirst]).1.mapSporksActive := by
  decide

/-- C4, the code at the failing input: after `recordFirst` and `recordOlder`
have been processed, `recordFirst` arrives again; its hash is a key of
`mapSporks`, and yet it replaces the active record, is relayed and is
dispatched a second time. -/
theorem C4_seen_record_is_processed_again :
    (deliver textSigner 7 startNode [recordFirst, recordOlder]).1.mapSporks.find?
        (GetHash textSigner recordFirst) = some recordFirst ∧
    (deliver textSigner 7 startNode [recordFirst, recordOlder]).1.mapSporksActive.entries
      = [(10000, recordOlder)] ∧
    (ProcessSpork textSigner (deliver textSigner 7 startNode [recordFirst, recordOlder]).1
        7 "spork" recordFirst).1.mapSporksActive.entries = [(10000, recordFirst)] ∧
    (ProcessSpork textSigner (deliver textSigner 7 startNode [recordFirst, recordOlder]).1
        7 "spork" recordFirst).2
      = [Effect.pushInv 1 (GetHash textSigner recordFirst),
         Effect.pushInv 2 (GetHash textSigner recordFirst),
         Effect.executeSpork 10000 5] := by
  decide

/-- C5, counterexample.  In lite mode a validly signed record for an id with
no active record is not stored, not relayed and not dispatched; and outside
lite mode the record with value 4070908800 is dispatched with the value
-224058496, the conversion of 4070908800 to `int`. -/
theorem C5_fails_in_lite_mode_and_for_wide_values :
    (startNodeLite.pindexBest = some 0 ∧
     CheckSignature textSigner startNodeLite.sporkManager recordFirst = true ∧
     startNodeLite.mapSporksActive.find? recordFirst.nSporkID = none ∧
     (ProcessSpork textSigner startNodeLite 7 "spork" recordFirst).1.mapSporksActive.find?
        recordFirst.nSporkID = none ∧
     (ProcessSpork textSigner startNodeLite 7 "spork" recordFirst).2 = []) ∧
    (startNode.fLiteMode = false ∧ startNode.pindexBest = some 0 ∧
     CheckSignature textSigner startNode.sporkManager recordWide = true ∧
     startNode.mapSporksActive.find? recordWide.nSporkID = none ∧
     recordWide.nValue = 4070908800 ∧
     (ProcessSpork textSigner startNode 7 "spork" recordWide).2
       = [Effect.pushInv 1 (GetHash textSigner recordWide),
          Effect.pushInv 2 (GetHash textSigner recordWide),
          Effect.executeSpork 10000 (-224058496)]) := by
  decide

/-- C5, amended: outside lite mode and with a chain tip, a validly signed
record `r` whose id has no active record, or an active record signed strictly
earlier, becomes `mapSporksActive[r.nSporkID]` and `mapSporks[hash(r)]`; every
other entry of both maps and the rest of the node state are unchanged; the
effects are one inventory announcement of the hash to every connected peer,
followed by exactly one dispatch for `r.nSporkID`, whose value is `r.nValue`
whenever `r.nValue` fits in a 32-bit `int`. -/
theorem C5_new_or_newer_record_is_accepted (ext : External) (st : Node) (pfrom : Nat)
    (r : CSporkMessage) (hlite : st.fLiteMode = false) (hchain : st.pindexBest ≠ none)
    (hsig : CheckSignature ext st.sporkManager r = true)
    (hnew : st.mapSporksActive.find? r.nSporkID = none ∨
      ∃ a, st.mapSporksActive.find? r.nSporkID = some a ∧ a.nTimeSigned < r.nTimeSigned) :
    (ProcessSpork ext st pfrom "spork" r).1 =
      { st with mapSporks := st.mapSporks.set (GetHash ext r) r,
                mapSporksActive := st.mapSporksActive.set r.nSporkID r } ∧
    (ProcessSpork ext st pfrom "spork" r).1.mapSporksActive.find? r.nSporkID = some r ∧
    (ProcessSpork ext st pfrom "spork" r).1.mapSporks.find? (GetHash ext r) = some r ∧
    (∀ id, id ≠ r.nSporkID →
      (ProcessSpork ext st pfrom "spork" r).1.mapSporksActive.find? id
        = st.mapSporksActive.find? id) ∧
    (∀ h, h ≠ GetHash ext r →
      (ProcessSpork ext st pfrom "spork" r).1.mapSporks.find? h = st.mapSporks.find? h) ∧
    ∃ v : Int,
      (ProcessSpork ext st pfrom "spork" r).2 =
        st.vNodes.map (fun pnode => Effect.pushInv pnode (GetHash ext r)) ++
          [Effect.executeSpork r.nSporkID v] ∧
      (-2 ^ 31 ≤ r.nValue → r.nValue < 2 ^ 31 → v = r.nValue) := by
  have hnotseen : ProcessSpork.seen ext st r = false := by
    cases hs : ProcessSpork.seen ext st r with
    | false => rfl
    | true =>
      obtain ⟨_, a, ha, hge⟩ := (seen_eq_true_iff ext st r).1 hs
      rcases hnew with h | ⟨b, hb, hlt⟩
      · rw [h] at ha; cases ha
      · rw [hb] at ha
        cases ha
        exact absurd hlt (not_lt.2 hge)
  rw [ProcessSpork_spork_eq ext st pfrom r hlite]
  rcases spork_block_cases ext st pfrom r hchain with h | h | h
  · rw [hnotseen] at h; cases h.1
  · rw [hsig] at h; cases h.2.1
  · rw [h.2.2]
    refine ⟨rfl, ?_, ?_, ?_, ?_, ?_⟩
    · exact StdMap.find?_set_self _ _ _
    · exact StdMap.find?_set_self _ _ _
    · intro id hid
      exact StdMap.find?_set_other _ _ _ _ hid
    · intro h' hh
      exact StdMap.find?_set_other _ _ _ _ hh
    · exact ⟨toInt32 r.nValue, rfl, toInt32_of_fits r.nValue⟩

/-- C5, witness: `startNode` receives `recordFirst`. -/
theorem C5_new_or_newer_record_is_accepted_witness :
    (ProcessSpork textSigner startNode 7 "spork" recordFirst).1.mapSporksActive.find?
        recordFirst.nSporkID = some recordFirst ∧
    (ProcessSpork textSigner startNode 7 "spork" recordFirst).1.mapSporks.find?
        (GetHash textSigner recordFirst) = some recordFirst :=
  have h := C5_new_or_newer_record_is_accepted textSigner startNode 7 recordFirst
    (by decide) (by decide) (by decide) (Or.inl (by decide))
  ⟨h.2.1, h.2.2.1⟩

/-! ## Signature check, penalties and gates -/

/-- C6: a record for which `CheckSignature` returns false leaves the node
state, and so `mapSporks` and `mapSporksActive`, unchanged; nothing is relayed
and nothing is dispatched: the only effect there can be is the penalty of the
sending peer. -/
theorem C6_bad_signature_changes_nothing (ext : External) (st : Node) (pfrom : Nat)
    (r : CSporkMessage) (hsig : CheckSignature ext st.sporkManager r = false) :
    (ProcessSpork ext st pfrom "spork" r).1 = st ∧
    (ProcessSpork ext st pfrom "spork" r).1.mapSporks = st.mapSporks ∧
    (ProcessSpork ext st pfrom "spork" r).1.mapSporksActive = st.mapSporksActive ∧
    (∀ peer hash, Effect.pushInv peer hash ∉ (ProcessSpork ext st pfrom "spork" r).2) ∧
    (∀ id v, Effect.executeSpork id v ∉ (ProcessSpork ext st pfrom "spork" r).2) := by
  have key : ProcessSpork ext st pfrom "spork" r = (st, []) ∨
      ProcessSpork ext st pfrom "spork" r = (st, [Effect.misbehaving pfrom 100]) := by
    cases hlite : st.fLiteMode with
    | true => left; exact ProcessSpork_lite ext st pfrom _ r hlite
    | false =>
      rw [ProcessSpork_spork_eq ext st pfrom r hlite]
      by_cases hchain : st.pindexBest = none
      · left; rw [spork_block_no_chain ext st pfrom r hchain]
      · rcases spork_block_cases ext st pfrom r hchain with h | h | h
        · left; rw [h.2]
        · right; rw [h.2.2]
        · rw [hsig] at h; cases h.2.1
  rcases key with h | h <;> rw [h] <;> simp

/-- C6, witness: `startNode` receives the forged record. -/
theorem C6_bad_signature_changes_nothing_witness :
    CheckSignature textSigner startNode.sporkManager recordForged = false ∧
    (ProcessSpork textSigner startNode 7 "spork" recordForged).1 = startNode :=
  ⟨by decide, (C6_bad_signature_changes_nothing textSigner startNode 7 recordForged
    (by decide)).1⟩

/-- C7, counterexample.  The forged record has the id, value and time of
the active, validly signed `recordFirst` and fails `CheckSignature`; with a
chain tip present the sending peer is not penalized (there is no effect at
all), because the record is taken for a seen one before the signature is
checked.  In lite mode a forged record is not penalized either. -/
theorem C7_forged_duplicate_is_not_penalized :
    (nodeAfterFirst.fLiteMode = false ∧ nodeAfterFirst.pindexBest = some 0 ∧
     nodeAfterFirst.mapSporksActive.find? 10000 = some recordFirst ∧
     recordForged.nSporkID = recordFirst.nSporkID ∧
     recordForged.nValue = recordFirst.nValue ∧
     recordForged.nTimeSigned = recordFirst.nTimeSigned ∧
     CheckSignature textSigner nodeAfterFirst.sporkManager recordFirst = true ∧
     CheckSignature textSigner nodeAfterFirst.sporkManager recordForged = false ∧
     (ProcessSpork textSigner nodeAfterFirst 7 "spork" recordForged).2 = []) ∧
    (startNodeLite.pindexBest = some 0 ∧
     CheckSignature textSigner startNodeLite.sporkManager recordForged = false ∧
     (ProcessSpork textSigner startNodeLite 7 "spork" recordForged).2 = []) := by
  decide

/-- C7, amended: outside lite mode and with a chain tip, a "spork" message
from peer `pfrom` whose record fails `CheckSignature` makes `ProcessSpork`
call `Misbehaving` on `pfrom` with weight 100, as its only effect, unless the
record is taken for a seen one (its hash is a key of `mapSporks` and the
active record of its id is signed at or after it). -/
theorem C7_bad_signature_is_penalized (ext : External) (st : Node) (pfrom : Nat)
    (r : CSporkMessage) (hlite : st.fLiteMode = false) (hchain : st.pindexBest ≠ none)
    (hsig : CheckSignature ext st.sporkManager r = false)
    (hfresh : ¬ ((∃ s, st.mapSporks.find? (GetHash ext r) = some s) ∧
      ∃ a, st.mapSporksActive.find? r.nSporkID = some a ∧ a.nTimeSigned ≥ r.nTimeSigned)) :
    ProcessSpork ext st pfrom "spork" r = (st, [Effect.misbehaving pfrom 100]) := by
  rw [ProcessSpork_spork_eq ext st pfrom r hlite]
  rcases spork_block_cases ext st pfrom r hchain with h | h | h
  · exact absurd ((seen_eq_true_iff ext st r).1 h.1) hfresh
  · rw [h.2.2]
  · rw [hsig] at h; cases h.2.1

/-- C7, witness: `startNode`, which has seen nothing, receives the forged
record from peer 7. -/
theorem C7_bad_signature_is_penalized_witness :
    CheckSignature textSigner startNode.sporkManager recordForged = false ∧
    ProcessSpork textSigner startNode 7 "spork" recordForged
      = (startNode, [Effect.misbehaving 7 100]) :=
  ⟨by decide, C7_bad_signature_is_penalized textSigner startNode 7 recordForged
    (by decide) (by decide) (by decide) (by
      rintro ⟨⟨s, hs⟩, _⟩
      have hn : startNode.mapSporks.find? (GetHash textSigner recordForged) = none := by
        decide
      rw [hn] at hs
      cases hs)⟩

/-- C8: a message whose record passes `CheckSignature` (new, duplicate or
stale), and any "getsporks" message, never makes `ProcessSpork` call
`Misbehaving`, on any peer and with any weight. -/
theorem C8_no_penalty_for_valid_record_or_sync (ext : External) (st : Node) (pfrom : Nat)
    (strCommand : String) (r : CSporkMessage)
    (h : CheckSignature ext st.sporkManager r = true ∨ strCommand = "getsporks") :
    ∀ peer howmuch,
      Effect.misbehaving peer howmuch ∉ (ProcessSpork ext st pfrom strCommand r).2 := by
  intro peer howmuch
  cases hlite : st.fLiteMode with
  | true => rw [ProcessSpork_lite ext st pfrom strCommand r hlite]; simp
  | false =>
    by_cases hs : strCommand = "spork"
    · subst hs
      have hsig : CheckSignature ext st.sporkManager r = true := by
        rcases h with h | h
        · exact h
        · exact absurd h (by decide)
      rw [ProcessSpork_spork_eq ext st pfrom r hlite]
      by_cases hchain : st.pindexBest = none
      · rw [spork_block_no_chain ext st pfrom r hchain]; simp
      · rcases spork_block_cases ext st pfrom r hchain with h1 | h1 | h1
        · rw [h1.2]; simp
        · rw [hsig] at h1; cases h1.2.1
        · rw [h1.2.2]; simp
    · by_cases hg : strCommand = "getsporks"
      · subst hg
        rw [ProcessSpork_getsporks_eq ext st pfrom r hlite]
        simp [ProcessSpork.getsporks]
      · rw [ProcessSpork_other_eq ext st pfrom strCommand r hs hg]; simp

/-- C8, witness: the validly signed but stale `recordOlder` arrives at
`nodeAfterFirst` from peer 7. -/
theorem C8_no_penalty_for_valid_record_or_sync_witness :
    CheckSignature textSigner nodeAfterFirst.sporkManager recordOlder = true ∧
    Effect.misbehaving 7 100 ∉ (ProcessSpork textSigner nodeAfterFirst 7 "spork" recordOlder).2 :=
  ⟨by decide, C8_no_penalty_for_valid_record_or_sync textSigner nodeAfterFirst 7 "spork"
    recordOlder (Or.inl (by decide)) 7 100⟩

/-- C9: with no chain tip (`pindexBest` is NULL) a "spork" message, whatever
its record and signature, is a no-op: the node state is unchanged and there is
no effect (no relay, no dispatch, no penalty). -/
theorem C9_no_chain_tip_is_a_no_op (ext : External) (st : Node) (pfrom : Nat)
    (r : CSporkMessage) (hchain : st.pindexBest = none) :
    ProcessSpork ext st pfrom "spork" r = (st, []) := by
  cases hlite : st.fLiteMode with
  | true => exact ProcessSpork_lite ext st pfrom _ r hlite
  | false =>
    rw [ProcessSpork_spork_eq ext st pfrom r hlite, spork_block_no_chain ext st pfrom r hchain]

/-- C9, witness: `startNode` without its chain tip receives `recordFirst`. -/
theorem C9_no_chain_tip_is_a_no_op_witness :
    ProcessSpork textSigner { startNode with pindexBest := none } 7 "spork" recordFirst
      = ({ startNode with pindexBest := none }, []) :=
  C9_no_chain_tip_is_a_no_op textSigner { startNode with pindexBest := none } 7 recordFirst rfl

/-! ## Synchronisation -/

/-- C10, counterexample: in lite mode a "getsporks" message is answered with
nothing, although there is one active record. -/
theorem C10_lite_mode_sends_no_reply :
    nodeLite.mapSporksActive.entries = [(10000, recordFirst)] ∧
    (ProcessSpork textSigner nodeLite 7 "getsporks" recordFirst).2 = [] := by
  decide

/-- C10, amended: outside lite mode, a "getsporks" message from peer `pfrom`
leaves the node state (and so both maps) unchanged and pushes to `pfrom`, in
key order, exactly one "spork" message per entry of `mapSporksActive`, each
carrying the record of that entry; nothing else is pushed, the number of
messages is the number of entries, no id appears twice among the entries, and
the record of each entry is the active record of its id. -/
theorem C10_getsporks_pushes_every_active_record (ext : External) (st : Node) (pfrom : Nat)
    (vRecv : CSporkMessage) (hlite : st.fLiteMode = false) :
    ProcessSpork ext st pfrom "getsporks" vRecv =
      (st, st.mapSporksActive.entries.map (fun it => Effect.pushSpork pfrom it.2)) ∧
    (ProcessSpork ext st pfrom "getsporks" vRecv).2.length = st.mapSporksActive.size ∧
    (st.mapSporksActive.entries.map Prod.fst).Nodup ∧
    (∀ it ∈ st.mapSporksActive.entries, st.mapSporksActive.find? it.1 = some it.2) := by
  rw [ProcessSpork_getsporks_eq ext st pfrom vRecv hlite]
  refine ⟨rfl, ?_, StdMap.keys_nodup _, ?_⟩
  · simp [ProcessSpork.getsporks, StdMap.size]
  · intro it hit
    exact rawFind_of_mem _ st.mapSporksActive.ordered it hit

/-- C10, witness: `nodeAfterFirst` answers peer 9 with its one active
record. -/
theorem C10_getsporks_pushes_every_active_record_witness :
    ProcessSpork textSigner nodeAfterFirst 9 "getsporks" recordFirst
      = (nodeAfterFirst, [Effect.pushSpork 9 recordFirst]) :=
  (C10_getsporks_pushes_every_active_record textSigner nodeAfterFirst 9 recordFirst
    (by decide)).1

/-! ## Queries -/

/-- C11, the code at the failing input: the active record of spork 10000
holds the value 4070908800 and `GetSporkValue(10000)` returns -224058496, the
conversion of that value to `int`. -/
theorem C11_wide_value_is_truncated :
    nodeAfterWide.mapSporksActive.find? 10000 = some recordWide ∧
    recordWide.nValue = 4070908800 ∧
    GetSporkValue nodeAfterWide 10000 = -224058496 := by
  decide

/-- C12, counterexample: the active record of spork 10000 holds the value 0,
which is before the time 1700000000, and `IsSporkActive(10000)` returns
false. -/
theorem C12_stored_zero_is_not_active :
    nodeAfterZero.mapSporksActive.find? 10000 = some recordZero ∧
    recordZero.nValue = 0 ∧ recordZero.nValue < 1700000000 ∧
    IsSporkActive nodeAfterZero 1700000000 10000 = false := by
  decide

/-- C12, amended: when an active record for `id` is present with value `v`,
`IsSporkActive(id)` returns true if and only if `v < now` for every `v` other
than 0; a stored 0 is replaced by 4070908800, so that the result is then
`4070908800 < now`. -/
theorem C12_active_record_threshold (st : Node) (now id : Int) (a : CSporkMessage)
    (h : st.mapSporksActive.find? id = some a) :
    IsSporkActive st now id
      = decide ((if a.nValue = 0 then 4070908800 else a.nValue) < now) ∧
    (a.nValue ≠ 0 → (IsSporkActive st now id = true ↔ a.nValue < now)) ∧
    (a.nValue = 0 → (IsSporkActive st now id = true ↔ 4070908800 < now)) := by
  have hmain : IsSporkActive st now id
      = decide ((if a.nValue = 0 then 4070908800 else a.nValue) < now) := by
    unfold IsSporkActive
    rw [h]
  refine ⟨hmain, ?_, ?_⟩
  · intro hv
    rw [hmain, if_neg hv]
    simp
  · intro hv
    rw [hmain, if_pos hv]
    simp

/-- C12, witness: spork 10000 holds the value 5 at `nodeAfterFirst`, and the
time is 1700000000. -/
theorem C12_active_record_threshold_witness :
    IsSporkActive nodeAfterFirst 1700000000 10000 = true ↔ recordFirst.nValue < 1700000000 :=
  (C12_active_record_threshold nodeAfterFirst 1700000000 10000 recordFirst
    (by decide)).2.1 (by decide)

/-- C13, counterexample: spork id 1 is not compiled in and has no active
record, and `IsSporkActive(1)` returns true at the time 4070908801. -/
theorem C13_unknown_id_is_active_after_2099 :
    (1 : Int) ≠ SPORK_MASTERNODE_PAYMENTS_ENFORCEMENT ∧ (1 : Int) ≠ SPORK_MAX_INSTANTX_VALUE ∧
    startNode.mapSporksActive.find? 1 = none ∧
    IsSporkActive startNode 4070908801 1 = true := by
  decide

/-- C13, amended: for an id other than 10000 and 10002 that has no active
record, `IsSporkActive(id)` returns `4070908800 < now`; it returns false at
every time `now` up to 4070908800 (2099-01-01). -/
theorem C13_unknown_id_uses_far_future_threshold (st : Node) (now id : Int)
    (h1 : id ≠ SPORK_MASTERNODE_PAYMENTS_ENFORCEMENT) (h2 : id ≠ SPORK_MAX_INSTANTX_VALUE)
    (h : st.mapSporksActive.find? id = none) :
    IsSporkActive st now id = decide (4070908800 < now) ∧
    (now ≤ 4070908800 → IsSporkActive st now id = false) := by
  have hmain : IsSporkActive st now id = decide (4070908800 < now) := by
    unfold IsSporkActive
    rw [h]
    simp [h1, h2]
  refine ⟨hmain, ?_⟩
  intro hnow
  rw [hmain]
  simpa using hnow

/-- C13, witness: spork id 1 at `startNode`, at the time 1700000000. -/
theorem C13_unknown_id_uses_far_future_threshold_witness :
    IsSporkActive startNode 1700000000 1 = false :=
  (C13_unknown_id_uses_far_future_threshold startNode 1700000000 1 (by decide) (by decide)
    (by decide)).2 (by decide)

/-- C14: for a compiled-in id with no active record, `IsSporkActive(id)`
equals `default(id) < now`, with default 1541030400 for id 10000 and 10000 for
id 10002. -/
theorem C14_known_id_uses_compiled_default (st : Node) (now : Int) :
    (st.mapSporksActive.find? 10000 = none →
      IsSporkActive st now 10000 = decide (1541030400 < now)) ∧
    (st.mapSporksActive.find? 10002 = none →
      IsSporkActive st now 10002 = decide (10000 < now)) ∧
    SPORK_MASTERNODE_PAYMENTS_ENFORCEMENT = 10000 ∧
    SPORK_MAX_INSTANTX_VALUE = 10002 ∧
    SPORK_MASTERNODE_PAYMENTS_ENFORCEMENT_DEFAULT = 1541030400 ∧
    SPORK_MAX_INSTANTX_VALUE_DEFAULT = 10000 := by
  refine ⟨?_, ?_, rfl, rfl, rfl, rfl⟩
  · intro h
    unfold IsSporkActive
    rw [h]
    simp [SPORK_MASTERNODE_PAYMENTS_ENFORCEMENT, SPORK_MAX_INSTANTX_VALUE,
      SPORK_MASTERNODE_PAYMENTS_ENFORCEMENT_DEFAULT]
  · intro h
    unfold IsSporkActive
    rw [h]
    simp [SPORK_MAX_INSTANTX_VALUE, SPORK_MAX_INSTANTX_VALUE_DEFAULT]

/-- C14, witness: `startNode` has no record; before 2018-11-01 spork 10000 is
not active, afterwards it is. -/
theorem C14_known_id_uses_compiled_default_witness :
    IsSporkActive startNode 1500000000 10000 = false ∧
    IsSporkActive startNode 1700000000 10000 = true :=
  ⟨((C14_known_id_uses_compiled_default startNode 1500000000).1 (by decide)).trans (by decide),
   ((C14_known_id_uses_compiled_default startNode 1700000000).1 (by decide)).trans (by decide)⟩

/-! ## The signed message -/

theorem digitValue_digitChar (d : Nat) (h : d < 10) : digitValue (Nat.digitChar d) = d := by
  interval_cases d <;> rfl

theorem digitChar_ne_minus (d : Nat) (h : d < 10) : Nat.digitChar d ≠ '-' := by
  interval_cases d <;> decide

theorem toDigitsCore_append (fuel : Nat) : ∀ (n : Nat) (ds : List Char),
    Nat.toDigitsCore 10 fuel n ds = Nat.toDigitsCore 10 fuel n [] ++ ds := by
  induction fuel with
  | zero => intro n ds; simp [Nat.toDigitsCore]
  | succ f ih =>
    intro n ds
    simp only [Nat.toDigitsCore]
    split_ifs with h
    · simp
    · rw [ih (n / 10) (Nat.digitChar (n % 10) :: ds), ih (n / 10) [Nat.digitChar (n % 10)]]
      simp

theorem readDigits_snoc (l : List Char) (c : Char) :
    readDigits (l ++ [c]) = 10 * readDigits l + digitValue c := by
  simp [readDigits, List.foldl_append]

theorem readDigits_toDigitsCore (fuel : Nat) : ∀ n : Nat, n < fuel →
    readDigits (Nat.toDigitsCore 10 fuel n []) = n := by
  induction fuel with
  | zero => intro n h; omega
  | succ f ih =>
    intro n hn
    simp only [Nat.toDigitsCore]
    split_ifs with h
    · have hlt : n < 10 := by omega
      have : n % 10 = n := Nat.mod_eq_of_lt hlt
      rw [this]
      simp [readDigits, digitValue_digitChar n hlt]
    · rw [toDigitsCore_append, readDigits_snoc, ih (n / 10) (by omega),
        digitValue_digitChar (n % 10) (Nat.mod_lt _ (by decide))]
      omega

theorem toDigitsCore_head_ne_minus (fuel : Nat) : ∀ (n : Nat) (ds : List Char),
    0 < fuel → (Nat.toDigitsCore 10 fuel n ds).head? ≠ some '-' := by
  induction fuel with
  | zero => intro n ds h; omega
  | succ f ih =>
    intro n ds _
    simp only [Nat.toDigitsCore]
    split_ifs with h
    · simp only [List.head?_cons, ne_eq, Option.some.injEq]
      exact digitChar_ne_minus _ (Nat.mod_lt _ (by decide))
    · cases f with
      | zero =>
        simp only [Nat.toDigitsCore, List.head?_cons, ne_eq, Option.some.injEq]
        exact digitChar_ne_minus _ (Nat.mod_lt _ (by decide))
      | succ g => exact ih (n / 10) _ (Nat.succ_pos g)

theorem readInt_toDigits (n : Nat) : readInt (Nat.toDigits 10 n) = (n : Int) := by
  have hhead := toDigitsCore_head_ne_minus (n + 1) n [] (Nat.succ_pos n)
  have hread := readDigits_toDigitsCore (n + 1) n (Nat.lt_succ_self n)
  unfold Nat.toDigits
  generalize Nat.toDigitsCore 10 (n + 1) n [] = l at hhead hread
  match l, hhead, hread with
  | [], _, hread => simp [readInt, hread]
  | c :: rest, hhead, hread =>
    have hc : c ≠ '-' := by simpa using hhead
    unfold readInt
    split
    · rename_i heq
      cases heq
      exact absurd rfl hc
    · rw [hread]

theorem readInt_lexical_cast (n : Int) : readInt (lexical_cast n).data = n := by
  cases n with
  | ofNat m =>
    show readInt (Nat.repr m).data = _
    simp only [Nat.repr, List.asString]
    exact readInt_toDigits m
  | negSucc m =>
    show readInt ("-" ++ Nat.repr (m + 1)).data = _
    simp only [Nat.repr, List.asString, String.data_append]
    show readInt ('-' :: Nat.toDigits 10 (m + 1)) = _
    have h := readDigits_toDigitsCore (m + 1 + 1) (m + 1) (Nat.lt_succ_self _)
    simp only [readInt, Nat.toDigits, h]
    rfl

theorem lexical_cast_data_injective (a b : Int)
    (h : (lexical_cast a).data = (lexical_cast b).data) : a = b := by
  rw [← readInt_lexical_cast a, ← readInt_lexical_cast b, h]

theorem strMessage_data (m : CSporkMessage) :
    (strMessage m).data = (lexical_cast m.nSporkID).data ++ (lexical_cast m.nValue).data ++
      (lexical_cast m.nTimeSigned).data := by
  simp [strMessage, String.data_append]

/-- C15, counterexample: the records (1, 23, 4) and (12, 3, 4) differ in id
and value and have the same message "1234". -/
theorem C15_message_collision :
    strMessage ⟨[], 1, 23, 4⟩ = "1234" ∧ strMessage ⟨[], 12, 3, 4⟩ = "1234" ∧
    (⟨[], 1, 23, 4⟩ : CSporkMessage).nSporkID ≠ (⟨[], 12, 3, 4⟩ : CSporkMessage).nSporkID ∧
    (⟨[], 1, 23, 4⟩ : CSporkMessage).nValue ≠ (⟨[], 12, 3, 4⟩ : CSporkMessage).nValue := by
  decide

/-- C15, amended: the message that `Sign` signs and `CheckSignature` verifies
is the decimal text of `nSporkID`, of `nValue` and of `nTimeSigned`, joined
without separators; it depends on these three fields only, and two records
that differ in exactly one of the three fields have different messages. -/
theorem C15_message_separates_single_field (a b : CSporkMessage) :
    strMessage a = toString a.nSporkID ++ toString a.nValue ++ toString a.nTimeSigned ∧
    (a.nSporkID = b.nSporkID → a.nValue = b.nValue → a.nTimeSigned = b.nTimeSigned →
      strMessage a = strMessage b) ∧
    (a.nSporkID ≠ b.nSporkID → a.nValue = b.nValue → a.nTimeSigned = b.nTimeSigned →
      strMessage a ≠ strMessage b) ∧
    (a.nSporkID = b.nSporkID → a.nValue ≠ b.nValue → a.nTimeSigned = b.nTimeSigned →
      strMessage a ≠ strMessage b) ∧
    (a.nSporkID = b.nSporkID → a.nValue = b.nValue → a.nTimeSigned ≠ b.nTimeSigned →
      strMessage a ≠ strMessage b) := by
  refine ⟨rfl, ?_, ?_, ?_, ?_⟩
  · intro h1 h2 h3
    simp [strMessage, h1, h2, h3]
  · intro h1 h2 h3 hmsg
    have hd := congrArg String.data hmsg
    rw [strMessage_data, strMessage_data, h2, h3, List.append_assoc, List.append_assoc] at hd
    exact h1 (lexical_cast_data_injective _ _ (List.append_cancel_right hd))
  · intro h1 h2 h3 hmsg
    have hd := congrArg String.data hmsg
    rw [strMessage_data, strMessage_data, h1, h3] at hd
    exact h2 (lexical_cast_data_injective _ _
      (List.append_cancel_left (List.append_cancel_right hd)))
  · intro h1 h2 h3 hmsg
    have hd := congrArg String.data hmsg
    rw [strMessage_data, strMessage_data, h1, h2] at hd
    exact h3 (lexical_cast_data_injective _ _ (List.append_cancel_left hd))

/-- C15, witness: `recordFirst` and `recordTie` differ in the value only. -/
theorem C15_message_separates_single_field_witness :
    strMessage recordFirst ≠ strMessage recordTie :=
  (C15_message_separates_single_field recordFirst recordTie).2.2.2.1
    (by decide) (by decide) (by decide)

/-! ## Keys -/

/-- C16, counterexample: the signature of the record validates over its
message under the compiled-in test key, and `CheckSignature` returns false. -/
theorem C16_test_key_signature_is_rejected :
    keyedSigner.VerifyMessage (keyedSigner.ParseHex CSporkManager.new.strTestPubKey)
      (keyedRecord 2 10000 5 1000).vchSig (strMessage (keyedRecord 2 10000 5 1000)) = true ∧
    CheckSignature keyedSigner CSporkManager.new (keyedRecord 2 10000 5 1000) = false := by
  decide

/-- C16, amended: `CheckSignature` returns true exactly when the signature of
the record validates over its message under the main public key of the
manager; the test public key is not consulted. -/
theorem C16_main_key_decides (ext : External) (mgr : CSporkManager) (r : CSporkMessage) :
    CheckSignature ext mgr r
      = ext.VerifyMessage (ext.ParseHex mgr.strMainPubKey) r.vchSig (strMessage r) ∧
    (ext.VerifyMessage (ext.ParseHex mgr.strMainPubKey) r.vchSig (strMessage r) = true →
      CheckSignature ext mgr r = true) ∧
    (∀ testKey, CheckSignature ext { mgr with strTestPubKey := testKey } r
      = CheckSignature ext mgr r) := by
  have h : CheckSignature ext mgr r
      = ext.VerifyMessage (ext.ParseHex mgr.strMainPubKey) r.vchSig (strMessage r) := by
    simp [CheckSignature]
  refine ⟨h, ?_, ?_⟩
  · intro hv
    rw [h, hv]
  · intro testKey
    rfl

/-- C16, witness: a record signed under the main key. -/
theorem C16_main_key_decides_witness :
    CheckSignature keyedSigner CSporkManager.new (keyedRecord 1 10000 5 1000) = true :=
  (C16_main_key_decides keyedSigner CSporkManager.new (keyedRecord 1 10000 5 1000)).2.1
    (by decide)

/-- C17, the code at the failing input: the manager holds the private key
"main"; `SetPrivKey` with a text that does not parse as a key, and with the
key "stranger" whose signatures the compiled-in public key rejects, returns
false both times and leaves the new text as the stored private key. -/
theorem C17_rejected_key_stays_installed :
    (keyedNode "main").sporkManager.strMasterPrivKey = "main" ∧
    keyedSigner.SetKey "garbage" = none ∧
    (SetPrivKey keyedSigner (keyedNode "main").sporkManager blankMessage "garbage").1 = false ∧
    (SetPrivKey keyedSigner (keyedNode "main").sporkManager blankMessage
      "garbage").2.strMasterPrivKey = "garbage" ∧
    (SetPrivKey keyedSigner (keyedNode "main").sporkManager blankMessage "stranger").1 = false ∧
    (SetPrivKey keyedSigner (keyedNode "main").sporkManager blankMessage
      "stranger").2.strMasterPrivKey = "stranger" := by
  decide

/-! ## Local updates -/

theorem unsignedRecord_eq (id value now : Int) :
    unsignedRecord id value now
      = { vchSig := [], nSporkID := id, nValue := value, nTimeSigned := now } := rfl

theorem Sign_fields (ext : External) (mgr : CSporkManager) (m : CSporkMessage) :
    (Sign ext mgr m).2.nSporkID = m.nSporkID ∧ (Sign ext mgr m).2.nValue = m.nValue ∧
    (Sign ext mgr m).2.nTimeSigned = m.nTimeSigned := by
  unfold Sign
  cases ext.SetKey mgr.strMasterPrivKey with
  | none => exact ⟨rfl, rfl, rfl⟩
  | some kp =>
    obtain ⟨key2, pubkey2⟩ := kp
    simp only []
    split_ifs <;> exact ⟨rfl, rfl, rfl⟩

/-- The three ways in which `Sign` fails. -/
theorem Sign_fail_cases (ext : External) (mgr : CSporkManager) (m : CSporkMessage) :
    (ext.SetKey mgr.strMasterPrivKey = none → (Sign ext mgr m).1 = false) ∧
    (∀ key2 pubkey2, ext.SetKey mgr.strMasterPrivKey = some (key2, pubkey2) →
      (ext.SignMessage (strMessage m) key2 m.vchSig).1 = false →
      (Sign ext mgr m).1 = false) ∧
    (∀ key2 pubkey2, ext.SetKey mgr.strMasterPrivKey = some (key2, pubkey2) →
      ext.VerifyMessage pubkey2 (ext.SignMessage (strMessage m) key2 m.vchSig).2
        (strMessage m) = false →
      (Sign ext mgr m).1 = false) := by
  refine ⟨?_, ?_, ?_⟩
  · intro h
    unfold Sign
    rw [h]
  · intro key2 pubkey2 h hs
    unfold Sign
    rw [h]
    simp only [hs]
    rfl
  · intro key2 pubkey2 h hv
    unfold Sign
    rw [h]
    simp only [hv]
    split_ifs with h1 h2
    · rfl
    · rfl
    · exact absurd rfl h2

theorem UpdateSpork_of_sign_ok (ext : External) (st : Node) (now id value : Int)
    (h : (Sign ext st.sporkManager (unsignedRecord id value now)).1 = true) :
    UpdateSpork ext st now id value =
      (true,
       { st with
         mapSporks := st.mapSporks.set
           (GetHash ext (Sign ext st.sporkManager (unsignedRecord id value now)).2)
           (Sign ext st.sporkManager (unsignedRecord id value now)).2,
         mapSporksActive := st.mapSporksActive.set id
           (Sign ext st.sporkManager (unsignedRecord id value now)).2 },
       st.vNodes.map (fun pnode => Effect.pushInv pnode
         (GetHash ext (Sign ext st.sporkManager (unsignedRecord id value now)).2))) := by
  rw [unsignedRecord_eq] at h ⊢
  simp [UpdateSpork, h, Relay]

theorem UpdateSpork_of_sign_fail (ext : External) (st : Node) (now id value : Int)
    (h : (Sign ext st.sporkManager (unsignedRecord id value now)).1 = false) :
    UpdateSpork ext st now id value = (false, st, []) := by
  rw [unsignedRecord_eq] at h
  simp [UpdateSpork, h]

theorem find?_set_some {K V : Type} [LinearOrder K] (m : StdMap K V) (k k2 : K) (v : V)
    (h : ∃ s, m.find? k = some s) : ∃ s, (m.set k2 v).find? k = some s := by
  by_cases hk : k = k2
  · subst hk
    exact ⟨v, StdMap.find?_set_self m k v⟩
  · rw [StdMap.find?_set_other m k2 k v hk]
    exact h

theorem paired_after_set (ext : External) (st : Node) (r : CSporkMessage)
    (h : Paired ext st) :
    Paired ext { st with mapSporks := st.mapSporks.set (GetHash ext r) r,
                         mapSporksActive := st.mapSporksActive.set r.nSporkID r } := by
  intro id x hx
  by_cases hid : id = r.nSporkID
  · subst hid
    have hxr : x = r := by
      have h1 : (st.mapSporksActive.set r.nSporkID r).find? r.nSporkID = some x := hx
      rw [StdMap.find?_set_self] at h1
      exact (Option.some.inj h1).symm
    subst hxr
    exact ⟨rfl, x, StdMap.find?_set_self _ _ _⟩
  · have h1 : (st.mapSporksActive.set r.nSporkID r).find? id = some x := hx
    rw [StdMap.find?_set_other _ _ _ _ hid] at h1
    obtain ⟨hx1, hx2⟩ := h id x h1
    exact ⟨hx1, find?_set_some st.mapSporks _ _ r hx2⟩

theorem keysKept_refl (st : Node) : KeysKept st st :=
  ⟨fun _ s h => ⟨s, h⟩, fun _ a h => ⟨a, h⟩⟩

theorem keysKept_after_set (st : Node) (hash : Nat) (id : Int) (r : CSporkMessage) :
    KeysKept st { st with mapSporks := st.mapSporks.set hash r,
                          mapSporksActive := st.mapSporksActive.set id r } :=
  ⟨fun k s h => find?_set_some st.mapSporks k hash r ⟨s, h⟩,
   fun k a h => find?_set_some st.mapSporksActive k id r ⟨a, h⟩⟩

/-- The state after `ProcessSpork`: the state before, or the state before with
the record stored in both maps. -/
theorem ProcessSpork_state (ext : External) (st : Node) (pfrom : Nat) (strCommand : String)
    (r : CSporkMessage) :
    (ProcessSpork ext st pfrom strCommand r).1 = st ∨
    (ProcessSpork ext st pfrom strCommand r).1 =
      { st with mapSporks := st.mapSporks.set (GetHash ext r) r,
                mapSporksActive := st.mapSporksActive.set r.nSporkID r } := by
  rcases Bool.eq_false_or_eq_true st.fLiteMode with hlite | hlite
  · left; rw [ProcessSpork_lite ext st pfrom strCommand r hlite]
  · by_cases hs : strCommand = "spork"
    · subst hs
      rw [ProcessSpork_spork_eq ext st pfrom r hlite]
      by_cases hchain : st.pindexBest = none
      · left; rw [spork_block_no_chain ext st pfrom r hchain]
      · rcases spork_block_cases ext st pfrom r hchain with h | h | h
        · left; rw [h.2]
        · left; rw [h.2.2]
        · right; rw [h.2.2]
    · by_cases hg : strCommand = "getsporks"
      · subst hg
        left; rw [ProcessSpork_getsporks_eq ext st pfrom r hlite]
      · left; rw [ProcessSpork_other_eq ext st pfrom strCommand r hs hg]

/-- The state after `UpdateSpork`: the state before, or the state before with
a record of the id stored in both maps. -/
theorem UpdateSpork_state (ext : External) (st : Node) (now id value : Int) :
    (UpdateSpork ext st now id value).2.1 = st ∨
    ∃ r : CSporkMessage, r.nSporkID = id ∧
      (UpdateSpork ext st now id value).2.1 =
        { st with mapSporks := st.mapSporks.set (GetHash ext r) r,
                  mapSporksActive := st.mapSporksActive.set r.nSporkID r } := by
  cases h : (Sign ext st.sporkManager (unsignedRecord id value now)).1 with
  | false => left; rw [UpdateSpork_of_sign_fail ext st now id value h]
  | true =>
    right
    have hid := (Sign_fields ext st.sporkManager (unsignedRecord id value now)).1
    refine ⟨(Sign ext st.sporkManager (unsignedRecord id value now)).2, hid, ?_⟩
    rw [UpdateSpork_of_sign_ok ext st now id value h, hid]
    rfl

theorem reachable_paired (ext : External) (st : Node) (h : Reachable ext st) :
    Paired ext st := by
  induction h with
  | start st h1 h2 =>
    intro id r hr
    rw [h2] at hr
    cases hr
  | process st pfrom strCommand vRecv _ ih =>
    rcases ProcessSpork_state ext st pfrom strCommand vRecv with h | h
    · rw [h]; exact ih
    · rw [h]; exact paired_after_set ext st vRecv ih
  | update st now id value _ ih =>
    rcases UpdateSpork_state ext st now id value with h | ⟨r, _, h⟩
    · rw [h]; exact ih
    · rw [h]; exact paired_after_set ext st r ih
  | surroundings st st2 _ h1 h2 ih =>
    intro id r hr
    rw [h2] at hr
    obtain ⟨hx1, hx2⟩ := ih id r hr
    rw [← h1] at hx2
    exact ⟨hx1, hx2⟩

/-- C18, counterexample, with the key "main" installed unless said otherwise
and the update of spork 10000 to 5 at the time 1000.  In lite mode, and
without a chain tip, `UpdateSpork` stores the signed record and `ProcessSpork`
of that record stores nothing.  With the key "stranger" installed
`UpdateSpork` makes active a record that `CheckSignature` rejects.  When the
active record of spork 10000 is signed at 1000, `UpdateSpork` at the time 500
replaces it.  When the node has received the same record with another valid
signature, `UpdateSpork` replaces the active record and `ProcessSpork` of the
signed record leaves it. -/
theorem C18_update_differs_from_received_record :
    ((Sign keyedSigner (keyedNode "main").sporkManager (unsignedRecord 10000 5 1000))
        = (true, keyedRecord 1 10000 5 1000)) ∧
    ((UpdateSpork keyedSigner { keyedNode "main" with fLiteMode := true } 1000 10000
        5).2.1.mapSporksActive.entries = [(10000, keyedRecord 1 10000 5 1000)] ∧
     (ProcessSpork keyedSigner { keyedNode "main" with fLiteMode := true } 7 "spork"
        (keyedRecord 1 10000 5 1000)).1.mapSporksActive.entries = []) ∧
    ((UpdateSpork keyedSigner { keyedNode "main" with pindexBest := none } 1000 10000
        5).2.1.mapSporksActive.entries = [(10000, keyedRecord 1 10000 5 1000)] ∧
     (ProcessSpork keyedSigner { keyedNode "main" with pindexBest := none } 7 "spork"
        (keyedRecord 1 10000 5 1000)).1.mapSporksActive.entries = []) ∧
    ((Sign keyedSigner (keyedNode "stranger").sporkManager (unsignedRecord 10000 5 1000))
        = (true, keyedRecord 3 10000 5 1000) ∧
     CheckSignature keyedSigner (keyedNode "stranger").sporkManager
        (keyedRecord 3 10000 5 1000) = false ∧
     (UpdateSpork keyedSigner (keyedNode "stranger") 1000 10000
        5).2.1.mapSporksActive.entries = [(10000, keyedRecord 3 10000 5 1000)] ∧
     (ProcessSpork keyedSigner (keyedNode "stranger") 7 "spork"
        (keyedRecord 3 10000 5 1000)).1.mapSporksActive.entries = []) ∧
    ((UpdateSpork keyedSigner (keyedNode "main") 1000 10000 5).2.1.mapSporksActive.entries
        = [(10000, keyedRecord 1 10000 5 1000)] ∧
     (UpdateSpork keyedSigner (UpdateSpork keyedSigner (keyedNode "main") 1000 10000 5).2.1
        500 10000 99).2.1.mapSporksActive.entries = [(10000, keyedRecord 1 10000 99 500)]) ∧
    (CheckSignature keyedSigner (keyedNode "main").sporkManager recordPadded = true ∧
     (ProcessSpork keyedSigner (keyedNode "main") 7 "spork" recordPadded).1.mapSporksActive.entries
        = [(10000, recordPadded)] ∧
     (UpdateSpork keyedSigner
        (ProcessSpork keyedSigner (keyedNode "main") 7 "spork" recordPadded).1
        1000 10000 5).2.1.mapSporksActive.entries = [(10000, keyedRecord 1 10000 5 1000)] ∧
     (ProcessSpork keyedSigner
        (ProcessSpork keyedSigner (keyedNode "main") 7 "spork" recordPadded).1
        7 "spork" (keyedRecord 1 10000 5 1000)).1.mapSporksActive.entries
        = [(10000, recordPadded)]) := by
  decide

/-- C18, amended: when signing succeeds, `UpdateSpork(id, value)` returns true
and stores the signed record (id, value, signed at `now`) as
`mapSporks[hash]` and as `mapSporksActive[id]`, whatever the active record was
before.  These are the two maps that `ProcessSpork` produces on receiving that
record from a peer whenever `ProcessSpork` accepts it: lite mode is off, there
is a chain tip, `CheckSignature` accepts the record, and the record is not
taken for a seen one (its hash a key of `mapSporks` and the active record of
`id` signed at or after `now`). -/
theorem C18_update_matches_accepted_record (ext : External) (st : Node)
    (now id value : Int) (pfrom : Nat)
    (hsign : (Sign ext st.sporkManager (unsignedRecord id value now)).1 = true) :
    (UpdateSpork ext st now id value).1 = true ∧
    (Sign ext st.sporkManager (unsignedRecord id value now)).2.nSporkID = id ∧
    (Sign ext st.sporkManager (unsignedRecord id value now)).2.nValue = value ∧
    (Sign ext st.sporkManager (unsignedRecord id value now)).2.nTimeSigned = now ∧
    (UpdateSpork ext st now id value).2.1.mapSporks =
      st.mapSporks.set (GetHash ext (Sign ext st.sporkManager (unsignedRecord id value now)).2)
        (Sign ext st.sporkManager (unsignedRecord id value now)).2 ∧
    (UpdateSpork ext st now id value).2.1.mapSporksActive =
      st.mapSporksActive.set id (Sign ext st.sporkManager (unsignedRecord id value now)).2 ∧
    (st.fLiteMode = false → st.pindexBest ≠ none →
      CheckSignature ext st.sporkManager
        (Sign ext st.sporkManager (unsignedRecord id value now)).2 = true →
      ¬ ((∃ s, st.mapSporks.find?
            (GetHash ext (Sign ext st.sporkManager (unsignedRecord id value now)).2) = some s) ∧
          ∃ a, st.mapSporksActive.find? id = some a ∧ a.nTimeSigned ≥ now) →
      (ProcessSpork ext st pfrom "spork"
          (Sign ext st.sporkManager (unsignedRecord id value now)).2).1.mapSporks
        = (UpdateSpork ext st now id value).2.1.mapSporks ∧
      (ProcessSpork ext st pfrom "spork"
          (Sign ext st.sporkManager (unsignedRecord id value now)).2).1.mapSporksActive
        = (UpdateSpork ext st now id value).2.1.mapSporksActive) := by
  obtain ⟨hid, hval, htime⟩ := Sign_fields ext st.sporkManager (unsignedRecord id value now)
  have hid2 : (Sign ext st.sporkManager (unsignedRecord id value now)).2.nSporkID = id := hid
  have htime2 : (Sign ext st.sporkManager (unsignedRecord id value now)).2.nTimeSigned = now :=
    htime
  rw [UpdateSpork_of_sign_ok ext st now id value hsign]
  refine ⟨rfl, hid2, hval, htime2, rfl, rfl, ?_⟩
  intro hlite hchain hsig hfresh
  rw [ProcessSpork_spork_eq ext st pfrom _ hlite]
  rcases spork_block_cases ext st pfrom
      (Sign ext st.sporkManager (unsignedRecord id value now)).2 hchain with h | h | h
  · exfalso
    apply hfresh
    have hs := (seen_eq_true_iff ext st _).1 h.1
    rw [hid2, htime2] at hs
    exact hs
  · rw [hsig] at h; cases h.2.1
  · rw [h.2.2, hid2]
    exact ⟨rfl, rfl⟩

/-- C18, witness: the node with the key "main" installed updates spork 10000
to 5 at the time 1000. -/
theorem C18_update_matches_accepted_record_witness :
    (UpdateSpork keyedSigner (keyedNode "main") 1000 10000 5).1 = true ∧
    (UpdateSpork keyedSigner (keyedNode "main") 1000 10000 5).2.1.mapSporksActive =
      (keyedNode "main").mapSporksActive.set 10000
        (Sign keyedSigner (keyedNode "main").sporkManager (unsignedRecord 10000 5 1000)).2 :=
  have h := C18_update_matches_accepted_record keyedSigner (keyedNode "main") 1000 10000 5 7
    (by decide)
  ⟨h.1, h.2.2.2.2.2.1⟩

/-- C19: in every state reachable from empty maps by calls of `ProcessSpork`
(any command, any record) and of `UpdateSpork`, every entry of
`mapSporksActive` holds a record with the id of its key and with a hash that
is a key of `mapSporks`; and no call of `ProcessSpork` or of `UpdateSpork`
removes a key from either map. -/
theorem C19_active_records_are_paired (ext : External) (st : Node)
    (h : Reachable ext st) :
    Paired ext st ∧
    (∀ pfrom strCommand vRecv,
      KeysKept st (ProcessSpork ext st pfrom strCommand vRecv).1) ∧
    (∀ now id value, KeysKept st (UpdateSpork ext st now id value).2.1) := by
  refine ⟨reachable_paired ext st h, ?_, ?_⟩
  · intro pfrom strCommand vRecv
    rcases ProcessSpork_state ext st pfrom strCommand vRecv with h1 | h1
    · rw [h1]; exact keysKept_refl st
    · rw [h1]; exact keysKept_after_set st _ _ vRecv
  · intro now id value
    rcases UpdateSpork_state ext st now id value with h1 | ⟨r, _, h1⟩
    · rw [h1]; exact keysKept_refl st
    · rw [h1]; exact keysKept_after_set st _ _ r

/-- C19, witness: the node `nodeAfterFirst`, reached from `startNode` by one
call of `ProcessSpork`. -/
theorem C19_active_records_are_paired_witness :
    Paired textSigner nodeAfterFirst :=
  (C19_active_records_are_paired textSigner nodeAfterFirst
    (Reachable.process startNode 7 "spork" recordFirst
      (Reachable.start startNode rfl rfl))).1

/-- C20: `UpdateSpork` returns true if and only if `Sign` succeeds; when
`Sign` fails (the private key does not parse, signing fails, or the check of
the fresh signature fails), `UpdateSpork` returns false, the node state and so
both maps are unchanged, and nothing is relayed. -/
theorem C20_update_fails_with_sign (ext : External) (st : Node) (now id value : Int) :
    ((UpdateSpork ext st now id value).1 = true ↔
      (Sign ext st.sporkManager (unsignedRecord id value now)).1 = true) ∧
    ((Sign ext st.sporkManager (unsignedRecord id value now)).1 = false →
      UpdateSpork ext st now id value = (false, st, [])) ∧
    (ext.SetKey st.sporkManager.strMasterPrivKey = none →
      (Sign ext st.sporkManager (unsignedRecord id value now)).1 = false) ∧
    (∀ key2 pubkey2, ext.SetKey st.sporkManager.strMasterPrivKey = some (key2, pubkey2) →
      (ext.SignMessage (strMessage (unsignedRecord id value now)) key2 []).1 = false →
      (Sign ext st.sporkManager (unsignedRecord id value now)).1 = false) ∧
    (∀ key2 pubkey2, ext.SetKey st.sporkManager.strMasterPrivKey = some (key2, pubkey2) →
      ext.VerifyMessage pubkey2
        (ext.SignMessage (strMessage (unsignedRecord id value now)) key2 []).2
        (strMessage (unsignedRecord id value now)) = false →
      (Sign ext st.sporkManager (unsignedRecord id value now)).1 = false) := by
  refine ⟨?_, ?_, ?_, ?_, ?_⟩
  · cases h : (Sign ext st.sporkManager (unsignedRecord id value now)).1 with
    | false => rw [UpdateSpork_of_sign_fail ext st now id value h]
    | true => rw [UpdateSpork_of_sign_ok ext st now id value h]
  · exact UpdateSpork_of_sign_fail ext st now id value
  · exact (Sign_fail_cases ext st.sporkManager (unsignedRecord id value now)).1
  · exact (Sign_fail_cases ext st.sporkManager (unsignedRecord id value now)).2.1
  · exact (Sign_fail_cases ext st.sporkManager (unsignedRecord id value now)).2.2

/-- C20, witness: no private key parses with `textSigner`, so the update of
spork 10000 to 5 at the time 1000 fails and leaves `startNode` as it is. -/
theorem C20_update_fails_with_sign_witness :
    UpdateSpork textSigner startNode 1000 10000 5 = (false, startNode, []) :=
  (C20_update_fails_with_sign textSigner startNode 1000 10000 5).2.1 (by decide)

/-! ## Names and ids -/

/-- C21: for the compiled-in ids 10000 and 10002, `GetSporkIDByName` of
`GetSporkNameByID(id)` is `id`; for every other id `GetSporkNameByID` returns
"Unknown", of which `GetSporkIDByName` is -1; `GetSporkIDByName(s)` is -1 for
every string `s` other than the two compiled-in names, and for these two
`GetSporkNameByID` of `GetSporkIDByName(s)` is `s`. -/
theorem C21_name_id_round_trip :
    GetSporkIDByName (GetSporkNameByID 10000) = 10000 ∧
    GetSporkIDByName (GetSporkNameByID 10002) = 10002 ∧
    (∀ id : Int, id ≠ 10000 → id ≠ 10002 →
      GetSporkNameByID id = "Unknown" ∧ GetSporkIDByName (GetSporkNameByID id) = -1) ∧
    (∀ s : String, s ≠ "SPORK_MASTERNODE_PAYMENTS_ENFORCEMENT" →
      s ≠ "SPORK_MAX_INSTANTX_VALUE" → GetSporkIDByName s = -1) ∧
    (∀ s : String, s = "SPORK_MASTERNODE_PAYMENTS_ENFORCEMENT" ∨
      s = "SPORK_MAX_INSTANTX_VALUE" → GetSporkNameByID (GetSporkIDByName s) = s) := by
  refine ⟨by decide, by decide, ?_, ?_, ?_⟩
  · intro id h1 h2
    have hname : GetSporkNameByID id = "Unknown" := by
      simp [GetSporkNameByID, SPORK_MASTERNODE_PAYMENTS_ENFORCEMENT, SPORK_MAX_INSTANTX_VALUE,
        h1, h2]
    rw [hname]
    exact ⟨rfl, by decide⟩
  · intro s h1 h2
    simp [GetSporkIDByName, h1, h2]
  · intro s hs
    rcases hs with h | h
    · rw [h]; decide
    · rw [h]; decide

/-- C21, witness: the id 7 and the names "Unknown" and
"SPORK_MAX_INSTANTX_VALUE". -/
theorem C21_name_id_round_trip_witness :
    GetSporkNameByID 7 = "Unknown" ∧ GetSporkIDByName "Unknown" = -1 ∧
    GetSporkNameByID (GetSporkIDByName "SPORK_MAX_INSTANTX_VALUE")
      = "SPORK_MAX_INSTANTX_VALUE" :=
  ⟨(C21_name_id_round_trip.2.2.1 7 (by decide) (by decide)).1,
   C21_name_id_round_trip.2.2.2.1 "Unknown" (by decide) (by decide),
   C21_name_id_round_trip.2.2.2.2 "SPORK_MAX_INSTANTX_VALUE" (Or.inr rfl)⟩

end Spork
